import Mathlib

/-!
Shallow embedding of the RLevator core (passenger / elevator / building
state machine) and verification of its specification claims.

Python integers are modelled as `Int`; Python exceptions as `Except` with an
explicit error type; in-place mutation as explicit state passing.  Where a
method can raise after having already mutated the object, the error value
carries the state at the moment of failure, matching Python's in-place
mutation semantics (prior mutations persist when an exception propagates).
-/

namespace RLevator

/-- Python runtime errors relevant to this code base. -/
inductive PyErr where
  | attributeError (attr : String)
  | indexError
  | typeError (msg : String)
  | exception (msg : String)
  deriving Repr, DecidableEq

/-! ## Passenger (src/rlevator/passenger.py) -/

structure Passenger where
  start_step : Int
  start_floor : Int
  destination_floor : Int
  max_wait_steps : Int
  steps_age : Int
  steps_wait : Int
  deriving Repr, DecidableEq

/-- `Passenger.__init__`: raises when `start_floor == destination_floor`,
otherwise creates the passenger with `steps_age = steps_wait = 0`. -/
def Passenger.create (start_step start_floor destination_floor : Int)
    (max_wait_steps : Int) : Except PyErr Passenger :=
  if start_floor = destination_floor then
    .error (.exception "Start floor should not be equal to destination floor")
  else
    .ok ⟨start_step, start_floor, destination_floor, max_wait_steps, 0, 0⟩

/-- `Passenger.increment_step`: `steps_wait` increases only outside an
elevator; `steps_age` always increases. -/
def Passenger.increment_step (p : Passenger) (in_elevator : Bool) : Passenger :=
  { p with
    steps_wait := if in_elevator then p.steps_wait else p.steps_wait + 1,
    steps_age := p.steps_age + 1 }

/-- `Passenger.get_start_floor`: the source returns `self.start_floro`, an
attribute that is never assigned anywhere (`__init__` sets `start_floor`),
so every call raises `AttributeError`. -/
def Passenger.get_start_floor (_ : Passenger) : Except PyErr Int :=
  .error (.attributeError "start_floro")

/-- `Passenger.get_destination_floor`. -/
def Passenger.get_destination_floor (p : Passenger) : Int :=
  p.destination_floor

/-- `Passenger.get_age`. -/
def Passenger.get_age (p : Passenger) : Int :=
  p.steps_age

/-- `Passenger.get_wait`. -/
def Passenger.get_wait (p : Passenger) : Int :=
  p.steps_wait

/-- `Passenger.reached_max_wait`: `steps_age > max_wait_steps`. -/
def Passenger.reached_max_wait (p : Passenger) : Bool :=
  decide (p.steps_age > p.max_wait_steps)

/-- `Passenger.reached_destination`. -/
def Passenger.reached_destination (p : Passenger) (elevator_floor : Int) : Bool :=
  decide (elevator_floor = p.destination_floor)

/-- `Passenger.moved_correct_direction`: end floor strictly closer to the
destination than the start floor. -/
def Passenger.moved_correct_direction (p : Passenger)
    (elevator_start_floor elevator_end_floor : Int) : Bool :=
  decide ((elevator_end_floor - p.destination_floor).natAbs
    < (elevator_start_floor - p.destination_floor).natAbs)

/-! ## Elevator (src/rlevator/elevator.py) -/

structure Elevator where
  floor : Int
  passengers : List Passenger
  min_floor : Int
  max_floor : Int
  capacity : Int
  destinations : List Int
  deriving Repr, DecidableEq

/-- Python `set.add` on the destinations set (membership is all that the
code ever observes of the set). -/
def destAdd (s : List Int) (x : Int) : List Int :=
  if x ∈ s then s else x :: s

/-- `Elevator._update_destinations`: rebuild the destination set from the
current passengers. -/
def Elevator.update_destinations (e : Elevator) : Elevator :=
  { e with
    destinations := e.passengers.foldl (fun s p => destAdd s p.destination_floor) [] }

/-- `Elevator.__init__`: note the start floor is stored as-is, with no
clamping against the floor bounds. -/
def Elevator.init (start_floor capacity min_floor max_floor : Int) : Elevator :=
  Elevator.update_destinations
    ⟨start_floor, [], min_floor, max_floor, capacity, []⟩

/-- `Elevator.get_current_floor`. -/
def Elevator.get_current_floor (e : Elevator) : Int :=
  e.floor

/-- `Elevator.get_count_passengers`. -/
def Elevator.get_count_passengers (e : Elevator) : Int :=
  (e.passengers.length : Int)

/-- `Elevator.available_capacity`: `capacity - len(passengers)`. -/
def Elevator.available_capacity (e : Elevator) : Int :=
  e.capacity - (e.passengers.length : Int)

/-- `Elevator.move`: clamp `floor + floor_diff` into `[min_floor, max_floor]`. -/
def Elevator.move (e : Elevator) (floor_diff : Int) : Elevator :=
  { e with floor := max (min (e.floor + floor_diff) e.max_floor) e.min_floor }

/-- `Elevator.load_passengers`: raises when given more passengers than the
available capacity, otherwise appends them and recomputes destinations. -/
def Elevator.load_passengers (e : Elevator) (passengers : List Passenger) :
    Except PyErr Elevator :=
  if (passengers.length : Int) > e.available_capacity then
    .error (.exception
      "The elevator cannot handle this many passengers and will be over capacity")
  else
    .ok (Elevator.update_destinations
      { e with passengers := e.passengers ++ passengers })

/-- The single pass of `Elevator.unload_passengers` that splits occupants
into those at their destination floor and those staying, in order. -/
def unloadSplit (fl : Int) : List Passenger → List Passenger × List Passenger
  | [] => ([], [])
  | p :: rest =>
    let (u, s) := unloadSplit fl rest
    if p.reached_destination fl then (p :: u, s) else (u, p :: s)

/-- `Elevator.unload_passengers`: remove all occupants whose destination is
the current floor, recompute destinations, return the departed list. -/
def Elevator.unload_passengers (e : Elevator) : List Passenger × Elevator :=
  let (unload, stay) := unloadSplit e.floor e.passengers
  (unload, Elevator.update_destinations { e with passengers := stay })

/-- `Elevator.count_correct_move_passengers`. -/
def Elevator.count_correct_move_passengers (e : Elevator) (start_floor : Int) : Int :=
  ((e.passengers.filter (fun p => p.moved_correct_direction start_floor e.floor)).length : Int)

/-- `Elevator.count_incorrect_move_passengers`. -/
def Elevator.count_incorrect_move_passengers (e : Elevator) (start_floor : Int) : Int :=
  ((e.passengers.filter (fun p => !p.moved_correct_direction start_floor e.floor)).length : Int)

/-! ## Actions (src/rlevator/actions.py) -/

/-- The six members of the `Action` enum. -/
inductive Action where
  | WAIT
  | MOVE_UP
  | MOVE_DOWN
  | LOAD_UP
  | LOAD_DOWN
  | UNLOAD
  deriving Repr, DecidableEq

/-- A Python value handed to `execute_action` as its `action` argument: either
one of the six `Action` enum members, or any other value (which compares
unequal to every enum member). -/
inductive PyAction where
  | known (a : Action)
  | other (v : Int)
  deriving Repr, DecidableEq

/-! ## Building (src/rlevator/building.py) -/

structure Building where
  num_floors : Nat
  num_elevators : Nat
  max_queue : Int
  up_queues : List (List Passenger)
  down_queues : List (List Passenger)
  rejected_queue_passengers : List Passenger
  deboarding_passengers : List Passenger
  reached_max_wait_passengers : List Passenger
  count_correct_direction_passengers : Int
  count_incorrect_direction_passengers : Int
  elevators : List Elevator
  deriving Repr, DecidableEq

/-- Resolve a Python list index of length `len`: negative indices wrap from
the end, and anything still out of range is an `IndexError`. -/
def pyIndex (len : Nat) (i : Int) : Option Nat :=
  let j := if i < 0 then i + (len : Int) else i
  if 0 ≤ j ∧ j < (len : Int) then some j.toNat else none

/-- The capacities check of `_initialize_elevators`: a plain int is never
rejected; a list is rejected only when it is shorter than `num_elevators`
(the code tests `len(...) < num_elevators`, not inequality). -/
def capacitiesRejected : (Int ⊕ List Int) → Nat → Bool
  | .inl _, _ => false
  | .inr l, num_elevators => decide (l.length < num_elevators)

/-- The start-floors / bounds check of `_initialize_elevators`: a non-`None`
list must have length exactly `num_elevators`. -/
def optionalListRejected {α : Type} : Option (List α) → Nat → Bool
  | none, _ => false
  | some l, num_elevators => decide (l.length ≠ num_elevators)

/-- `Building._initialize_elevators`: the input checks, then the
construction loop.  Capacities may be a single int or a list; note the list
case is checked only with `len(...) < num_elevators`, so longer lists pass.
The subsequent indexing is always in range thanks to the length checks, so
it is modelled with `getD`. -/
def initialize_elevators (num_floors num_elevators : Nat)
    (elevator_capacities : Option (Int ⊕ List Int))
    (elevator_start_floors : Option (List Int))
    (elevator_bounds : Option (List (Int × Int))) : Except PyErr (List Elevator) :=
  match elevator_capacities with
  | none => .error (.exception "Elevator capacities cannot be None")
  | some caps =>
    if capacitiesRejected caps num_elevators then
      .error (.exception
        "Elevator capacities should either be an integer or a list of integers equal to the number of elevators.")
    else if optionalListRejected elevator_start_floors num_elevators then
      .error (.exception
        "Elevator start floor should either be None or a list of integers equal to the number of elevators.")
    else if optionalListRejected elevator_bounds num_elevators then
      .error (.exception
        "Elevator bounds should either be None or a list of list  integers equal to the number of elevators.")
    else
      .ok ((List.range num_elevators).map (fun i =>
        let start_floor : Int := match elevator_start_floors with
          | none => 0
          | some l => l.getD i 0
        let capacity : Int := match caps with
          | .inl c => c
          | .inr l => l.getD i 0
        let bnds : Int × Int := match elevator_bounds with
          | none => (0, (num_floors : Int) - 1)
          | some l => l.getD i (0, 0)
        Elevator.init start_floor capacity bnds.1 bnds.2))

/-- `Building.__init__` followed by `reset` (`_initialize_queues` and
`_initialize_elevators`): empty queues per floor, empty per-step lists, zero
counters, and the elevators (or a configuration error). -/
def Building.create (num_floors num_elevators : Nat) (max_queue : Int)
    (elevator_capacities : Option (Int ⊕ List Int))
    (elevator_start_floors : Option (List Int))
    (elevator_bounds : Option (List (Int × Int))) : Except PyErr Building :=
  match initialize_elevators num_floors num_elevators elevator_capacities
      elevator_start_floors elevator_bounds with
  | .error e => .error e
  | .ok els => .ok
    { num_floors := num_floors
      num_elevators := num_elevators
      max_queue := max_queue
      up_queues := List.replicate num_floors []
      down_queues := List.replicate num_floors []
      rejected_queue_passengers := []
      deboarding_passengers := []
      reached_max_wait_passengers := []
      count_correct_direction_passengers := 0
      count_incorrect_direction_passengers := 0
      elevators := els }

/-- The per-step reset at the top of `execute_step`: clear the transient
lists and the direction counters. -/
def Building.clear_step (b : Building) : Building :=
  { b with
    deboarding_passengers := []
    rejected_queue_passengers := []
    reached_max_wait_passengers := []
    count_correct_direction_passengers := 0
    count_incorrect_direction_passengers := 0 }

/-- The loop body of `Building.remove_max_wait_from_queue`: split a queue
into (expired, kept), both in original order. -/
def expirySplit : List Passenger → List Passenger × List Passenger
  | [] => ([], [])
  | p :: rest =>
    let (ex, kept) := expirySplit rest
    if p.reached_max_wait then (p :: ex, kept) else (ex, p :: kept)

/-- The loop of `Building.remove_max_wait_passengers` over one direction's
queues: thread the accumulated `reached_max_wait_passengers` list through
each queue in floor order and replace each queue by its kept part. -/
def expirySweep (reached : List Passenger) :
    List (List Passenger) → List Passenger × List (List Passenger)
  | [] => (reached, [])
  | q :: rest =>
    let (ex, kept) := expirySplit q
    let (r, rest') := expirySweep (reached ++ ex) rest
    (r, kept :: rest')

/-- `Building.remove_max_wait_passengers`: sweep the up queues, then the
down queues. -/
def Building.remove_max_wait_passengers (b : Building) : Building :=
  let (r1, ups) := expirySweep b.reached_max_wait_passengers b.up_queues
  let (r2, downs) := expirySweep r1 b.down_queues
  { b with
    up_queues := ups
    down_queues := downs
    reached_max_wait_passengers := r2 }

/-- `Building.add_passenger_to_queue`.  The first statement calls
`passenger.get_start_floor()`, which always raises (see
`Passenger.get_start_floor`), so the direction test, the same-floor check
and the append/reject logic below it are dead code; they are still
translated faithfully.  The error carries the (unchanged) building state. -/
def Building.add_passenger_to_queue (b : Building) (passenger : Passenger) :
    Except (PyErr × Building) Building :=
  match passenger.get_start_floor with
  | .error e => .error (e, b)
  | .ok start_floor =>
    if passenger.get_destination_floor > start_floor then
      match pyIndex b.up_queues.length start_floor with
      | none => .error (.indexError, b)
      | some f =>
        let try_queue := b.up_queues.getD f []
        if (try_queue.length : Int) < b.max_queue then
          .ok { b with up_queues := b.up_queues.set f (try_queue ++ [passenger]) }
        else
          .ok { b with
            rejected_queue_passengers := b.rejected_queue_passengers ++ [passenger] }
    else if passenger.get_destination_floor < start_floor then
      match pyIndex b.down_queues.length start_floor with
      | none => .error (.indexError, b)
      | some f =>
        let try_queue := b.down_queues.getD f []
        if (try_queue.length : Int) < b.max_queue then
          .ok { b with down_queues := b.down_queues.set f (try_queue ++ [passenger]) }
        else
          .ok { b with
            rejected_queue_passengers := b.rejected_queue_passengers ++ [passenger] }
    else
      .error (.exception
        "Passenger's destination floor cannot be the same as start floor", b)

/-- `Building.add_arrivals_to_queues`: process arrivals in order, stopping
at (and propagating) the first error. -/
def Building.add_arrivals_to_queues (b : Building) :
    List Passenger → Except (PyErr × Building) Building
  | [] => .ok b
  | p :: rest =>
    match b.add_passenger_to_queue p with
    | .error e => .error e
    | .ok b' => b'.add_arrivals_to_queues rest

/-- `Building.load`: pop up to `available_capacity()` passengers from the
front of the queue (Python's `range` of a negative number is empty), then
call `load_passengers`.  Returns the updated elevator and remaining queue. -/
def Building.load (elevator : Elevator) (queue : List Passenger) :
    Except PyErr (Elevator × List Passenger) :=
  let cap := elevator.available_capacity.toNat
  let boarding_passengers := queue.take cap
  match elevator.load_passengers boarding_passengers with
  | .error e => .error e
  | .ok e' => .ok (e', queue.drop cap)

/-- `Building.move_down`: move elevator `num` one floor down, then
`update_move_direction_counts` re-reads the (already moved) elevator and
adds its correct/incorrect direction counts, using the pre-move floor. -/
def Building.move_down (b : Building) (num : Nat) : Except (PyErr × Building) Building :=
  if h : num < b.elevators.length then
    let e := b.elevators.get ⟨num, h⟩
    let start_floor := e.get_current_floor
    let e' := e.move (-1)
    .ok { b with
      elevators := b.elevators.set num e'
      count_correct_direction_passengers :=
        b.count_correct_direction_passengers
          + e'.count_correct_move_passengers start_floor
      count_incorrect_direction_passengers :=
        b.count_incorrect_direction_passengers
          + e'.count_incorrect_move_passengers start_floor }
  else .error (.indexError, b)

/-- `Building.move_up`: as `move_down` with `move(1)`. -/
def Building.move_up (b : Building) (num : Nat) : Except (PyErr × Building) Building :=
  if h : num < b.elevators.length then
    let e := b.elevators.get ⟨num, h⟩
    let start_floor := e.get_current_floor
    let e' := e.move 1
    .ok { b with
      elevators := b.elevators.set num e'
      count_correct_direction_passengers :=
        b.count_correct_direction_passengers
          + e'.count_correct_move_passengers start_floor
      count_incorrect_direction_passengers :=
        b.count_incorrect_direction_passengers
          + e'.count_incorrect_move_passengers start_floor }
  else .error (.indexError, b)

/-- `Building.load_up`: load from the up queue at the elevator's current
floor. -/
def Building.load_up (b : Building) (num : Nat) : Except (PyErr × Building) Building :=
  if h : num < b.elevators.length then
    let e := b.elevators.get ⟨num, h⟩
    match pyIndex b.up_queues.length e.get_current_floor with
    | none => .error (.indexError, b)
    | some f =>
      let queue := b.up_queues.getD f []
      match Building.load e queue with
      | .error err => .error (err, b)
      | .ok (e', queue') => .ok { b with
          elevators := b.elevators.set num e'
          up_queues := b.up_queues.set f queue' }
  else .error (.indexError, b)

/-- `Building.load_down`: load from the down queue at the elevator's current
floor. -/
def Building.load_down (b : Building) (num : Nat) : Except (PyErr × Building) Building :=
  if h : num < b.elevators.length then
    let e := b.elevators.get ⟨num, h⟩
    match pyIndex b.down_queues.length e.get_current_floor with
    | none => .error (.indexError, b)
    | some f =>
      let queue := b.down_queues.getD f []
      match Building.load e queue with
      | .error err => .error (err, b)
      | .ok (e', queue') => .ok { b with
          elevators := b.elevators.set num e'
          down_queues := b.down_queues.set f queue' }
  else .error (.indexError, b)

/-- `Building.unload`: unload elevator `num` and append the departed
passengers to the step's deboarding list. -/
def Building.unload (b : Building) (num : Nat) : Except (PyErr × Building) Building :=
  if h : num < b.elevators.length then
    let e := b.elevators.get ⟨num, h⟩
    let (departed, e') := e.unload_passengers
    .ok { b with
      elevators := b.elevators.set num e'
      deboarding_passengers := b.deboarding_passengers ++ departed }
  else .error (.indexError, b)

/-- `Building.execute_action`: the `if`/`elif` dispatch over the six enum
members; any other value falls through every branch and the method returns
with no effect. -/
def Building.execute_action (b : Building) (elevator_num : Nat) (action : PyAction) :
    Except (PyErr × Building) Building :=
  if action = .known .MOVE_DOWN then b.move_down elevator_num
  else if action = .known .MOVE_UP then b.move_up elevator_num
  else if action = .known .WAIT then .ok b
  else if action = .known .LOAD_UP then b.load_up elevator_num
  else if action = .known .LOAD_DOWN then b.load_down elevator_num
  else if action = .known .UNLOAD then b.unload elevator_num
  else .ok b

/-- The `enumerate(action_list)` loop of `execute_step`. -/
def Building.run_actions (b : Building) :
    List PyAction → Nat → Except (PyErr × Building) Building
  | [], _ => .ok b
  | a :: rest, i =>
    match b.execute_action i a with
    | .error e => .error e
    | .ok b' => b'.run_actions rest (i + 1)

/-- `Building._increment_step`: age every queued passenger (outside an
elevator) and every elevator occupant (inside). -/
def Building.increment_step (b : Building) : Building :=
  { b with
    up_queues := b.up_queues.map (fun q => q.map (fun p => p.increment_step false))
    down_queues := b.down_queues.map (fun q => q.map (fun p => p.increment_step false))
    elevators := b.elevators.map (fun e =>
      { e with passengers := e.passengers.map (fun p => p.increment_step true) }) }

/-- `Building.execute_step`: length validation, per-step reset, expiry pass,
arrival intake, per-elevator actions in index order, aging pass.  An error
carries the building state at the moment it was raised. -/
def Building.execute_step (b : Building) (arrived_passengers : List Passenger)
    (action_list : List PyAction) : Except (PyErr × Building) Building :=
  if action_list.length ≠ b.num_elevators then
    .error (.exception
      "The number of actions provided must match the number of elevators", b)
  else
    let b1 := b.clear_step
    let b2 := b1.remove_max_wait_passengers
    match b2.add_arrivals_to_queues arrived_passengers with
    | .error e => .error e
    | .ok b3 =>
      match b3.run_actions action_list 0 with
      | .error e => .error e
      | .ok b4 => .ok b4.increment_step

/-- The building state observable at the end of a (possibly failed) call:
on an error the prior in-place mutations persist. -/
def stepState (r : Except (PyErr × Building) Building) : Building :=
  match r with
  | .ok b => b
  | .error (_, b) => b

/-- `Building.elevator_destination_bool_list`: the loop body reads
`self.elevator[i]`, but the attribute is named `elevators` and `elevator`
is never assigned, so the first iteration raises `AttributeError`; with
zero elevators the loop body never runs. -/
def Building.elevator_destination_bool_list (b : Building) :
    Except PyErr (List (List Bool)) :=
  if b.num_elevators = 0 then .ok []
  else .error (.attributeError "elevator")

/-- `Building.queue_request_button_statuses`: per floor, whether the up and
down queues are non-empty. -/
def Building.queue_request_button_statuses (b : Building) : List (List Bool) :=
  [(List.range b.num_floors).map (fun i => decide (0 < (b.up_queues.getD i []).length)),
   (List.range b.num_floors).map (fun i => decide (0 < (b.down_queues.getD i []).length))]

/-- `numpy.array(data, astype=int8)`: `astype` is not a keyword accepted by
`numpy.array`, so the call raises `TypeError` whatever the data. -/
def npArrayAstype {α : Type} (_ : α) : Except PyErr α :=
  .error (.typeError "astype is an invalid keyword argument for array")

/-- The observation dictionary built by `get_observation_limited`. -/
structure Observation where
  elevator_buttons : List (List Bool)
  queue_buttons : List (List Bool)
  elevator_floors : List Int
  deriving Repr, DecidableEq

/-- `Building.get_observation_limited`: builds the three entries in source
order; the first entry evaluates `elevator_destination_bool_list()` (which
raises) before `numpy.array` is even called. -/
def Building.get_observation_limited (b : Building) : Except PyErr Observation := do
  let ebl ← b.elevator_destination_bool_list
  let elevator_buttons ← npArrayAstype ebl
  let queue_buttons ← npArrayAstype b.queue_request_button_statuses
  let elevator_floors ← npArrayAstype (b.elevators.map (fun e => e.get_current_floor))
  pure ⟨elevator_buttons, queue_buttons, elevator_floors⟩

/-! ## Helper lemmas -/

theorem expirySplit_eq (q : List Passenger) :
    expirySplit q
      = (q.filter (fun p => p.reached_max_wait),
         q.filter (fun p => !p.reached_max_wait)) := by
  induction q with
  | nil => rfl
  | cons p rest ih =>
    simp only [expirySplit, ih, List.filter]
    cases h : p.reached_max_wait <;> simp [h]

theorem expirySweep_eq (qs : List (List Passenger)) (r : List Passenger) :
    expirySweep r qs
      = (r ++ (qs.map (fun q => q.filter (fun p => p.reached_max_wait))).flatten,
         qs.map (fun q => q.filter (fun p => !p.reached_max_wait))) := by
  induction qs generalizing r with
  | nil => simp [expirySweep]
  | cons q rest ih =>
    simp [expirySweep, expirySplit_eq, ih, List.append_assoc]

theorem unloadSplit_eq (fl : Int) (l : List Passenger) :
    unloadSplit fl l
      = (l.filter (fun p => p.reached_destination fl),
         l.filter (fun p => !p.reached_destination fl)) := by
  induction l with
  | nil => rfl
  | cons p rest ih =>
    simp only [unloadSplit, ih, List.filter]
    cases h : p.reached_destination fl <;> simp [h]

theorem mem_destAdd (s : List Int) (y x : Int) :
    x ∈ destAdd s y ↔ x ∈ s ∨ x = y := by
  simp only [destAdd]
  split
  · constructor
    · exact fun h => Or.inl h
    · rintro (h | rfl)
      · exact h
      · assumption
  · simp [List.mem_cons, or_comm]

theorem mem_foldl_destAdd (l : List Passenger) (init : List Int) (x : Int) :
    x ∈ l.foldl (fun s p => destAdd s p.destination_floor) init
      ↔ x ∈ init ∨ ∃ p ∈ l, p.destination_floor = x := by
  induction l generalizing init with
  | nil => simp
  | cons p rest ih =>
    simp only [List.foldl_cons, ih, mem_destAdd, List.mem_cons]
    constructor
    · rintro (⟨h | h⟩ | ⟨q, hq, hd⟩)
      · exact Or.inl h
      · exact Or.inr ⟨p, Or.inl rfl, h.symm⟩
      · exact Or.inr ⟨q, Or.inr hq, hd⟩
    · rintro (h | ⟨q, hq | hq, hd⟩)
      · exact Or.inl (Or.inl h)
      · subst hq
        exact Or.inl (Or.inr hd.symm)
      · exact Or.inr ⟨q, hq, hd⟩

theorem pyIndex_of_nonneg (len : Nat) (i : Int) (h0 : 0 ≤ i) (h1 : i < (len : Int)) :
    pyIndex len i = some i.toNat := by
  have hn : ¬i < 0 := by omega
  simp [pyIndex, hn, h0, h1]

theorem move_down_reached (b : Building) (i : Nat) :
    (stepState (b.move_down i)).reached_max_wait_passengers
      = b.reached_max_wait_passengers := by
  unfold Building.move_down
  split <;> rfl

theorem move_up_reached (b : Building) (i : Nat) :
    (stepState (b.move_up i)).reached_max_wait_passengers
      = b.reached_max_wait_passengers := by
  unfold Building.move_up
  split <;> rfl

theorem load_up_reached (b : Building) (i : Nat) :
    (stepState (b.load_up i)).reached_max_wait_passengers
      = b.reached_max_wait_passengers := by
  unfold Building.load_up
  split
  · dsimp only
    split
    · rfl
    · split <;> rfl
  · rfl

theorem load_down_reached (b : Building) (i : Nat) :
    (stepState (b.load_down i)).reached_max_wait_passengers
      = b.reached_max_wait_passengers := by
  unfold Building.load_down
  split
  · dsimp only
    split
    · rfl
    · split <;> rfl
  · rfl

theorem unload_reached (b : Building) (i : Nat) :
    (stepState (b.unload i)).reached_max_wait_passengers
      = b.reached_max_wait_passengers := by
  unfold Building.unload
  split <;> rfl

theorem execute_action_reached (b : Building) (i : Nat) (a : PyAction) :
    (stepState (b.execute_action i a)).reached_max_wait_passengers
      = b.reached_max_wait_passengers := by
  unfold Building.execute_action
  split
  · exact move_down_reached b i
  · split
    · exact move_up_reached b i
    · split
      · rfl
      · split
        · exact load_up_reached b i
        · split
          · exact load_down_reached b i
          · split
            · exact unload_reached b i
            · rfl

theorem run_actions_reached (acts : List PyAction) (b : Building) (i : Nat) :
    (stepState (b.run_actions acts i)).reached_max_wait_passengers
      = b.reached_max_wait_passengers := by
  induction acts generalizing b i with
  | nil => rfl
  | cons a rest ih =>
    have h := execute_action_reached b i a
    unfold Building.run_actions
    cases hc : b.execute_action i a with
    | error e =>
      rw [hc] at h
      exact h
    | ok b' =>
      rw [hc] at h
      exact (ih b' (i + 1)).trans h

theorem add_passenger_reached (b : Building) (p : Passenger) :
    (stepState (b.add_passenger_to_queue p)).reached_max_wait_passengers
      = b.reached_max_wait_passengers := rfl

theorem add_arrivals_reached (arr : List Passenger) (b : Building) :
    (stepState (b.add_arrivals_to_queues arr)).reached_max_wait_passengers
      = b.reached_max_wait_passengers := by
  induction arr generalizing b with
  | nil => rfl
  | cons p rest ih =>
    have h := add_passenger_reached b p
    unfold Building.add_arrivals_to_queues
    cases hc : b.add_passenger_to_queue p with
    | error e =>
      rw [hc] at h
      exact h
    | ok b' =>
      rw [hc] at h
      exact (ih b').trans h

/-! ## Concrete fixtures used by witnesses and counterexamples -/

/-- A three-floor elevator of capacity 3 starting at floor 0. -/
def egElevator : Elevator := Elevator.init 0 3 0 2

/-- A fresh three-floor, one-elevator building with `max_queue = 5`. -/
def egBuilding : Building :=
  ⟨3, 1, 5, [[], [], []], [[], [], []], [], [], [], 0, 0, [egElevator]⟩

/-- `egBuilding` carrying left-over per-step state from a previous step: a
nonzero correct-direction counter and an expired passenger queued at
floor 0 (age 51 against a max wait of 50). -/
def egDirtyBuilding : Building :=
  { egBuilding with
    count_correct_direction_passengers := 3
    up_queues := [[⟨0, 0, 2, 50, 51, 51⟩], [], []] }

/-- A passenger record whose start and destination floors are both 0. -/
def egSameFloorPassenger : Passenger := ⟨0, 0, 0, 50, 0, 0⟩

/-- A one-elevator building whose elevator was configured with capacity
`-1` (`Building.create` accepts any integer capacity). -/
def egNegCapBuilding : Building :=
  ⟨2, 1, 20, [[], []], [[], []], [], [], [], 0, 0, [Elevator.init 0 (-1) 0 1]⟩

/-! ## Claims -/

/-- Claim C1: arrival intake is claimed to append each new passenger to the
up- or down-queue of its start floor (or reject it when the queue is full).
In the code this never happens: the first statement of
`add_passenger_to_queue` calls `passenger.get_start_floor()`, which returns
the never-assigned attribute `start_floro` and therefore raises
`AttributeError` for every passenger, leaving the building unchanged.  This
contradicts the repository's own tests (`test_add_passengers_queues_*`),
so the code, not the claim, is wrong. -/
theorem c1_arrival_intake_raises (b : Building) (p : Passenger) :
    b.add_passenger_to_queue p = .error (.attributeError "start_floro", b) := rfl

/-- Claim C10: any `action` value that is none of the six `Action` enum
members falls through every branch of `execute_action`'s dispatch, raising
nothing and leaving the building unchanged. -/
theorem c10_unknown_action_noop (b : Building) (i : Nat) (v : Int) :
    b.execute_action i (.other v) = .ok b := rfl

/-- Claim C5: `get_observation_limited` is claimed to return the snapshot
without failing; in the code its first component calls
`elevator_destination_bool_list`, whose loop reads `self.elevator[i]` — the
attribute is `elevators`, `elevator` is never assigned — so, for every
building with at least one elevator, the query raises `AttributeError`
(and the `numpy.array(..., astype=int8)` calls would raise `TypeError`
even if it did not). -/
theorem c5_observation_raises (b : Building) (h : 1 ≤ b.num_elevators) :
    b.get_observation_limited = .error (.attributeError "elevator") := by
  have h0 : b.num_elevators ≠ 0 := by omega
  simp [Building.get_observation_limited, Building.elevator_destination_bool_list,
    h0, Bind.bind, Except.bind]

theorem c5_observation_raises_witness :
    1 ≤ egBuilding.num_elevators
      ∧ egBuilding.get_observation_limited = .error (.attributeError "elevator") :=
  ⟨by decide, c5_observation_raises egBuilding (by decide)⟩

/-- Claim C4 (amended): construction stores the start floor unclamped, so
`min_floor ≤ floor ≤ max_floor` holds immediately after construction if and
only if the start floor already lies within the bounds; `move` clamps, so
(whenever `min_floor ≤ max_floor`) the invariant holds after every move,
an out-of-bounds request leaving the elevator at the bound. -/
theorem c4_floor_bounds :
    (∀ s c mn mx : Int, (Elevator.init s c mn mx).floor = s)
    ∧ (∀ s c mn mx : Int,
        (mn ≤ (Elevator.init s c mn mx).floor ∧ (Elevator.init s c mn mx).floor ≤ mx)
          ↔ (mn ≤ s ∧ s ≤ mx))
    ∧ (∀ (e : Elevator) (d : Int), e.min_floor ≤ e.max_floor →
        e.min_floor ≤ (e.move d).floor ∧ (e.move d).floor ≤ e.max_floor) := by
  refine ⟨fun s c mn mx => rfl, fun s c mn mx => Iff.rfl, fun e d h => ?_⟩
  simp only [Elevator.move]
  omega

theorem c4_floor_bounds_witness :
    egElevator.min_floor ≤ (egElevator.move 1).floor
      ∧ (egElevator.move 1).floor ≤ egElevator.max_floor :=
  c4_floor_bounds.2.2 egElevator 1 (by decide)

/-- Claim C4 counterexample: an elevator constructed with start floor 5 and
bounds `[0, 3]` sits at floor 5 immediately after construction — the claimed
implicit clamping at construction does not exist. -/
theorem c4_floor_bounds_counterexample :
    ¬((Elevator.init 5 10 0 3).min_floor ≤ (Elevator.init 5 10 0 3).floor
      ∧ (Elevator.init 5 10 0 3).floor ≤ (Elevator.init 5 10 0 3).max_floor) := by
  decide

/-- Claim C7: `unload_passengers` removes exactly the occupants whose
destination equals the current floor and returns them in original relative
order; the remaining occupants keep their relative order, there is no limit
on the number leaving at once (every matching occupant departs), and
`destinations` is recomputed to the distinct destinations of the remaining
occupants.  Floor, capacity and bounds are untouched. -/
theorem c7_unload_exact (e : Elevator) :
    e.unload_passengers.1
        = e.passengers.filter (fun p => p.reached_destination e.floor)
    ∧ e.unload_passengers.2.passengers
        = e.passengers.filter (fun p => !p.reached_destination e.floor)
    ∧ (∀ x : Int, x ∈ e.unload_passengers.2.destinations
        ↔ ∃ p ∈ e.unload_passengers.2.passengers, p.destination_floor = x)
    ∧ e.unload_passengers.2.floor = e.floor
    ∧ e.unload_passengers.2.capacity = e.capacity
    ∧ e.unload_passengers.2.min_floor = e.min_floor
    ∧ e.unload_passengers.2.max_floor = e.max_floor := by
  simp only [Elevator.unload_passengers, unloadSplit_eq, Elevator.update_destinations]
  simp [mem_foldl_destAdd]

/-- Claim C9 counterexample: the capacity-violation branch of
`load_passengers` is reachable through the dispatcher's own `LOAD_UP`
handling — a building whose elevator was configured with capacity `-1`
(which construction accepts) raises it on an empty queue, because
`available_capacity()` is negative while the pre-limited boarding list has
length 0. -/
theorem c9_load_error_counterexample :
    egNegCapBuilding.execute_action 0 (.known .LOAD_UP)
      = .error (.exception
          "The elevator cannot handle this many passengers and will be over capacity",
        egNegCapBuilding) := rfl

/-- Claim C9 (amended): `load_passengers` raises a capacity violation if and
only if the candidate list is longer than `available_capacity()`; when
loading is driven by the dispatcher's `Building.load`, that branch is
unreachable provided the elevator's available capacity is nonnegative (it
is reachable when `capacity < len(passengers)`, e.g. a configured negative
capacity). -/
theorem c9_capacity_error_iff :
    (∀ (e : Elevator) (ps : List Passenger),
      (∃ err, e.load_passengers ps = .error err)
        ↔ (ps.length : Int) > e.available_capacity)
    ∧ (∀ (e : Elevator) (q : List Passenger), 0 ≤ e.available_capacity →
        ∃ r, Building.load e q = .ok r) := by
  constructor
  · intro e ps
    unfold Elevator.load_passengers
    split
    case isTrue h => simpa using h
    case isFalse h => simp [h]
  · intro e q h
    unfold Building.load Elevator.load_passengers
    dsimp only
    have hlen : (q.take e.available_capacity.toNat).length
        ≤ e.available_capacity.toNat := by
      simp [List.length_take]
    have hcast : ¬((q.take e.available_capacity.toNat).length : Int)
        > e.available_capacity := by omega
    rw [if_neg hcast]
    exact ⟨_, rfl⟩

theorem c9_capacity_error_iff_witness :
    0 ≤ egElevator.available_capacity
      ∧ ∃ r, Building.load egElevator [] = .ok r :=
  ⟨by decide, c9_capacity_error_iff.2 egElevator [] (by decide)⟩

/-- Claim C2 counterexample: calling `execute_step` with a same-floor
passenger in the arrivals does fail, but not as claimed: the error is the
`AttributeError` from the broken `get_start_floor` accessor (raised before
the same-floor check can run), and at the moment of failure the state has
already mutated — here the correct-direction counter was cleared from 3 to
0, and the expired passenger was removed from its queue into the expired
list. -/
theorem c2_no_mutation_counterexample :
    egDirtyBuilding.execute_step [egSameFloorPassenger] [.known .WAIT]
      = .error (.attributeError "start_floro",
          { egDirtyBuilding with
            count_correct_direction_passengers := 0
            up_queues := [[], [], []]
            reached_max_wait_passengers := [⟨0, 0, 2, 50, 51, 51⟩] })
    ∧ ({ egDirtyBuilding with
          count_correct_direction_passengers := 0
          up_queues := [[], [], []]
          reached_max_wait_passengers := [⟨0, 0, 2, 50, 51, 51⟩] } : Building)
        ≠ egDirtyBuilding := by
  constructor
  · rfl
  · decide

/-- Claim C2 (amended): with a same-floor passenger among the arrivals (and
a well-sized action list), `execute_step` fails — in the current code with
the `AttributeError` from `get_start_floor`, raised at the first arrival,
before the same-floor check is reachable — and at the moment of failure the
per-step transient lists and direction counters have already been cleared
and the expiry pass has already run; no arrival has been enqueued. -/
theorem c2_failure_after_mutation (b : Building) (arr : List Passenger)
    (acts : List PyAction) (p : Passenger) (hmem : p ∈ arr)
    (hsame : p.start_floor = p.destination_floor)
    (hlen : acts.length = b.num_elevators) :
    b.execute_step arr acts
      = .error (.attributeError "start_floro",
          b.clear_step.remove_max_wait_passengers) := by
  unfold Building.execute_step
  rw [if_neg (by omega)]
  cases arr with
  | nil => simp at hmem
  | cons q rest => rfl

theorem c2_failure_after_mutation_witness :
    egSameFloorPassenger ∈ [egSameFloorPassenger]
    ∧ egSameFloorPassenger.start_floor = egSameFloorPassenger.destination_floor
    ∧ [PyAction.known .WAIT].length = egBuilding.num_elevators
    ∧ egBuilding.execute_step [egSameFloorPassenger] [.known .WAIT]
        = .error (.attributeError "start_floro",
            egBuilding.clear_step.remove_max_wait_passengers) :=
  ⟨by simp, rfl, by decide,
    c2_failure_after_mutation egBuilding [egSameFloorPassenger] [.known .WAIT]
      egSameFloorPassenger (by simp) rfl (by decide)⟩

/-- Claim C3 counterexample: a capacities list of length 2 for a
one-elevator building is accepted — construction succeeds using the first
entry — because the code checks only `len(capacities) < num_elevators`,
not inequality. -/
theorem c3_long_capacities_counterexample :
    Building.create 2 1 20 (some (.inr [5, 7])) none none
      = .ok ⟨2, 1, 20, [[], []], [[], []], [], [], [], 0, 0,
          [Elevator.init 0 5 0 1]⟩ := rfl

/-- Claim C3 (amended): with well-formed start floors and bounds,
construction raises when `elevator_capacities` is `None` or a sequence
shorter than `num_elevators`; it succeeds and creates exactly
`num_elevators` elevators when given a single int or a sequence of length
at least `num_elevators` (extra entries are ignored). -/
theorem c3_construction_validation (nf ne : Nat) (mq : Int)
    (caps : Option (Int ⊕ List Int)) (starts : Option (List Int))
    (bounds : Option (List (Int × Int)))
    (hs : starts = none ∨ ∃ l, starts = some l ∧ l.length = ne)
    (hb : bounds = none ∨ ∃ l, bounds = some l ∧ l.length = ne) :
    (caps = none →
      Building.create nf ne mq caps starts bounds
        = .error (.exception "Elevator capacities cannot be None"))
    ∧ (∀ l, caps = some (.inr l) → l.length < ne →
        ∃ e, Building.create nf ne mq caps starts bounds = .error e)
    ∧ (∀ c, caps = some (.inl c) →
        ∃ b, Building.create nf ne mq caps starts bounds = .ok b
          ∧ b.elevators.length = ne)
    ∧ (∀ l, caps = some (.inr l) → ne ≤ l.length →
        ∃ b, Building.create nf ne mq caps starts bounds = .ok b
          ∧ b.elevators.length = ne) := by
  have hstart : optionalListRejected starts ne = false := by
    rcases hs with rfl | ⟨ls, rfl, hls⟩
    · rfl
    · simp [optionalListRejected, hls]
  have hbound : optionalListRejected bounds ne = false := by
    rcases hb with rfl | ⟨lb, rfl, hlb⟩
    · rfl
    · simp [optionalListRejected, hlb]
  refine ⟨?_, ?_, ?_, ?_⟩
  · rintro rfl
    rfl
  · rintro l rfl hshort
    unfold Building.create initialize_elevators
    simp [capacitiesRejected, hshort]
  · rintro c rfl
    unfold Building.create initialize_elevators
    simp [capacitiesRejected, hstart, hbound]
  · rintro l rfl hlong
    unfold Building.create initialize_elevators
    have hsh : ¬l.length < ne := by omega
    simp [capacitiesRejected, hsh, hstart, hbound]

theorem c3_construction_validation_witness :
    (none : Option (List Int)) = none
    ∧ ∃ b, Building.create 3 2 5 (some (.inl 3)) none none = .ok b
        ∧ b.elevators.length = 2 :=
  ⟨rfl, (c3_construction_validation 3 2 5 (some (.inl 3)) none none
      (Or.inl rfl) (Or.inl rfl)).2.2.1 3 rfl⟩

/-- Claim C6: a `LOAD_UP` (resp. `LOAD_DOWN`) action on elevator `i`, whose
matching queue at its current floor holds `n` passengers and whose
available capacity is `c ≥ 0`, boards exactly the first `min n c` queued
passengers in FIFO order, appended after the existing occupants, and the
remaining `n - min n c` passengers stay queued in their original relative
order; nothing else in the building changes. -/
theorem c6_load_fifo (b : Building) (i : Nat) (e : Elevator)
    (h1 : i < b.elevators.length) (he : b.elevators.get ⟨i, h1⟩ = e)
    (hcap : 0 ≤ e.available_capacity) (hfl : 0 ≤ e.floor) :
    ((e.floor < (b.up_queues.length : Int)) →
      b.execute_action i (.known .LOAD_UP)
        = .ok { b with
            elevators := b.elevators.set i
              (Elevator.update_destinations { e with
                passengers := e.passengers
                  ++ (b.up_queues.getD e.floor.toNat []).take
                      e.available_capacity.toNat }),
            up_queues := b.up_queues.set e.floor.toNat
              ((b.up_queues.getD e.floor.toNat []).drop
                  e.available_capacity.toNat) }
      ∧ ((b.up_queues.getD e.floor.toNat []).take e.available_capacity.toNat).length
          = min (b.up_queues.getD e.floor.toNat []).length
              e.available_capacity.toNat)
    ∧ ((e.floor < (b.down_queues.length : Int)) →
      b.execute_action i (.known .LOAD_DOWN)
        = .ok { b with
            elevators := b.elevators.set i
              (Elevator.update_destinations { e with
                passengers := e.passengers
                  ++ (b.down_queues.getD e.floor.toNat []).take
                      e.available_capacity.toNat }),
            down_queues := b.down_queues.set e.floor.toNat
              ((b.down_queues.getD e.floor.toNat []).drop
                  e.available_capacity.toNat) }
      ∧ ((b.down_queues.getD e.floor.toNat []).take e.available_capacity.toNat).length
          = min (b.down_queues.getD e.floor.toNat []).length
              e.available_capacity.toNat) := by
  constructor
  · intro h3
    have hup : b.execute_action i (.known .LOAD_UP) = b.load_up i := rfl
    rw [hup]
    unfold Building.load_up
    rw [dif_pos h1]
    dsimp only
    rw [he]
    simp only [Elevator.get_current_floor]
    rw [pyIndex_of_nonneg _ _ hfl h3]
    dsimp only
    have hload : Building.load e (b.up_queues.getD e.floor.toNat [])
        = .ok (Elevator.update_destinations { e with
            passengers := e.passengers
              ++ (b.up_queues.getD e.floor.toNat []).take e.available_capacity.toNat },
          (b.up_queues.getD e.floor.toNat []).drop e.available_capacity.toNat) := by
      unfold Building.load Elevator.load_passengers
      dsimp only
      have hlen : ((b.up_queues.getD e.floor.toNat []).take
          e.available_capacity.toNat).length ≤ e.available_capacity.toNat := by
        simp [List.length_take]
      rw [if_neg (by omega)]
    rw [hload]
    exact ⟨rfl, by simp [List.length_take, Nat.min_comm]⟩
  · intro h3
    have hdown : b.execute_action i (.known .LOAD_DOWN) = b.load_down i := rfl
    rw [hdown]
    unfold Building.load_down
    rw [dif_pos h1]
    dsimp only
    rw [he]
    simp only [Elevator.get_current_floor]
    rw [pyIndex_of_nonneg _ _ hfl h3]
    dsimp only
    have hload : Building.load e (b.down_queues.getD e.floor.toNat [])
        = .ok (Elevator.update_destinations { e with
            passengers := e.passengers
              ++ (b.down_queues.getD e.floor.toNat []).take e.available_capacity.toNat },
          (b.down_queues.getD e.floor.toNat []).drop e.available_capacity.toNat) := by
      unfold Building.load Elevator.load_passengers
      dsimp only
      have hlen : ((b.down_queues.getD e.floor.toNat []).take
          e.available_capacity.toNat).length ≤ e.available_capacity.toNat := by
        simp [List.length_take]
      rw [if_neg (by omega)]
    rw [hload]
    exact ⟨rfl, by simp [List.length_take, Nat.min_comm]⟩

/-- A four-passenger up queue at floor 0, all bound for floor 2, in arrival
order. -/
def egQueue : List Passenger :=
  [⟨0, 0, 2, 50, 0, 0⟩, ⟨1, 0, 2, 50, 0, 0⟩, ⟨2, 0, 2, 50, 0, 0⟩, ⟨3, 0, 2, 50, 0, 0⟩]

/-- `egBuilding` with `egQueue` waiting in the floor-0 up queue. -/
def egLoadBuilding : Building :=
  ⟨3, 1, 5, [egQueue, [], []], [[], [], []], [], [], [], 0, 0, [egElevator]⟩

theorem c6_load_fifo_witness :
    egLoadBuilding.execute_action 0 (.known .LOAD_UP)
      = .ok { egLoadBuilding with
          elevators := egLoadBuilding.elevators.set 0
            (Elevator.update_destinations { egElevator with
              passengers := egElevator.passengers
                ++ (egLoadBuilding.up_queues.getD egElevator.floor.toNat []).take
                    egElevator.available_capacity.toNat }),
          up_queues := egLoadBuilding.up_queues.set egElevator.floor.toNat
            ((egLoadBuilding.up_queues.getD egElevator.floor.toNat []).drop
                egElevator.available_capacity.toNat) }
    ∧ ((egLoadBuilding.up_queues.getD egElevator.floor.toNat []).take
          egElevator.available_capacity.toNat).length
        = min (egLoadBuilding.up_queues.getD egElevator.floor.toNat []).length
            egElevator.available_capacity.toNat :=
  (c6_load_fifo egLoadBuilding 0 egElevator (by decide) rfl (by decide) (by decide)).1
    (by decide)

/-- Claim C8: `reached_max_wait` holds exactly when `steps_age` strictly
exceeds `max_wait_steps`; the expiry pass (which `execute_step` runs right
after clearing the per-step lists and before arrival intake) replaces every
up and down queue by its non-expired passengers in original relative order
and collects the expired ones, each exactly once, in queue order; and for
any call of `execute_step` with a well-sized action list, the expired list
observable at the end of the call (successful or not) is exactly the
expired passengers of the queues as they stood before the step — arrivals
processed later can never enter it. -/
theorem c8_expiry_pass :
    (∀ p : Passenger, p.reached_max_wait = true ↔ p.steps_age > p.max_wait_steps)
    ∧ (∀ b : Building,
        b.clear_step.remove_max_wait_passengers.up_queues
            = b.up_queues.map (fun q => q.filter (fun p => !p.reached_max_wait))
        ∧ b.clear_step.remove_max_wait_passengers.down_queues
            = b.down_queues.map (fun q => q.filter (fun p => !p.reached_max_wait))
        ∧ b.clear_step.remove_max_wait_passengers.reached_max_wait_passengers
            = (b.up_queues.map (fun q => q.filter (fun p => p.reached_max_wait))).flatten
              ++ (b.down_queues.map (fun q => q.filter (fun p => p.reached_max_wait))).flatten)
    ∧ (∀ (b : Building) (arr : List Passenger) (acts : List PyAction),
        acts.length = b.num_elevators →
        (stepState (b.execute_step arr acts)).reached_max_wait_passengers
          = (b.up_queues.map (fun q => q.filter (fun p => p.reached_max_wait))).flatten
            ++ (b.down_queues.map (fun q => q.filter (fun p => p.reached_max_wait))).flatten) := by
  have hexp : ∀ b : Building,
      b.clear_step.remove_max_wait_passengers.up_queues
          = b.up_queues.map (fun q => q.filter (fun p => p.reached_max_wait = true → False))
        ∧ b.clear_step.remove_max_wait_passengers.down_queues
          = b.down_queues.map (fun q => q.filter (fun p => !p.reached_max_wait))
        ∧ b.clear_step.remove_max_wait_passengers.reached_max_wait_passengers
          = (b.up_queues.map (fun q => q.filter (fun p => p.reached_max_wait))).flatten
            ++ (b.down_queues.map (fun q => q.filter (fun p => p.reached_max_wait))).flatten := by
    intro b
    simp [Building.clear_step, Building.remove_max_wait_passengers, expirySweep_eq]
  refine ⟨fun p => by simp [Passenger.reached_max_wait], fun b => ?_, ?_⟩
  · have h := hexp b
    simpa using h
  · intro b arr acts hlen
    have hreach : b.clear_step.remove_max_wait_passengers.reached_max_wait_passengers
        = (b.up_queues.map (fun q => q.filter (fun p => p.reached_max_wait))).flatten
          ++ (b.down_queues.map (fun q => q.filter (fun p => p.reached_max_wait))).flatten :=
      (hexp b).2.2
    unfold Building.execute_step
    rw [if_neg (by omega)]
    dsimp only
    cases hc : b.clear_step.remove_max_wait_passengers.add_arrivals_to_queues arr with
    | error e =>
      have h := add_arrivals_reached arr b.clear_step.remove_max_wait_passengers
      rw [hc] at h
      simpa [stepState] using h.trans hreach
    | ok b3 =>
      dsimp only
      have h3 : b3.reached_max_wait_passengers
          = b.clear_step.remove_max_wait_passengers.reached_max_wait_passengers := by
        have h := add_arrivals_reached arr b.clear_step.remove_max_wait_passengers
        rw [hc] at h
        exact h
      cases hr : b3.run_actions acts 0 with
      | error e2 =>
        have h := run_actions_reached acts b3 0
        rw [hr] at h
        simpa [stepState] using (h.trans h3).trans hreach
      | ok b4 =>
        have h := run_actions_reached acts b3 0
        rw [hr] at h
        have hinc : b4.increment_step.reached_max_wait_passengers
            = b4.reached_max_wait_passengers := rfl
        simpa [stepState, hinc] using (h.trans h3).trans hreach

theorem c8_expiry_pass_witness :
    [PyAction.known .WAIT].length = egDirtyBuilding.num_elevators
    ∧ (stepState (egDirtyBuilding.execute_step [] [.known .WAIT])).reached_max_wait_passengers
        = (egDirtyBuilding.up_queues.map
              (fun q => q.filter (fun p => p.reached_max_wait))).flatten
          ++ (egDirtyBuilding.down_queues.map
              (fun q => q.filter (fun p => p.reached_max_wait))).flatten :=
  ⟨by decide, c8_expiry_pass.2.2 egDirtyBuilding [] [.known .WAIT] (by decide)⟩

end RLevator
